import Mathlib

set_option autoImplicit false

/-!
Verification development for the headache-vault engagement engine.

The definitions below are a shallow embedding of the JavaScript source.
Database reads and writes are made explicit (current rows are inputs,
executed writes are recorded in the results), timestamps (`new Date()`)
are explicit integer arguments, and fallible operations return `Option`.

Embedded components:

* `VALID_TRANSITIONS`, `transitionState` — src/lib/state-machine/transitions.js;
* `markJobFailed`, `failSeq`, `isDue` — the scheduler service retry ladder
  and the `get_and_lock_due_jobs` due-row predicate (migration 003);
* `localTarget`, `nextOccurrence` — the scheduler's timezone computation;
* `processJob`, `dispatchSummary` — the cron dispatch handler;
* `routeByConfidence`, `parseResponse`, `regexFallback` and the pattern
  machinery — the classification pipeline (AI parser document in
  src/docs/parse-time.js).

All definitions are executable; proofs are at the end of the file.
-/

namespace HeadacheVault

/-- Patient lifecycle states, from the `patient_state` vocabulary used by
src/lib/state-machine/transitions.js. -/
inductive PState where
  | ENROLLED
  | ONBOARDING
  | DAILY_ACTIVE
  | PAUSED
  | TRANSITION
  | WEEKLY
  | TREATMENT
  | DORMANT
  | UNSUBSCRIBED
deriving DecidableEq, Repr

open PState

/-- The legal-transition table `VALID_TRANSITIONS` from
src/lib/state-machine/transitions.js lines 22–32: map of from_state to the
list of allowed to_states. -/
def VALID_TRANSITIONS : PState → List PState
  | ENROLLED => [ONBOARDING, UNSUBSCRIBED, DORMANT]
  | ONBOARDING => [DAILY_ACTIVE, UNSUBSCRIBED]
  | DAILY_ACTIVE => [DAILY_ACTIVE, PAUSED, TRANSITION, UNSUBSCRIBED]
  | PAUSED => [DAILY_ACTIVE, DORMANT, UNSUBSCRIBED]
  | TRANSITION => [WEEKLY, TREATMENT, DORMANT, UNSUBSCRIBED]
  | WEEKLY => [DAILY_ACTIVE, DORMANT, UNSUBSCRIBED]
  | TREATMENT => [TRANSITION, PAUSED, UNSUBSCRIBED]
  | DORMANT => [DAILY_ACTIVE, UNSUBSCRIBED]
  | UNSUBSCRIBED => []

/-- The patient row fields that `transitionState` reads or writes.
Timestamps are milliseconds since epoch. -/
structure Patient where
  state : PState
  optedInAt : Option Int
  optedOutAt : Option Int
deriving DecidableEq, Repr

/-- Result of a `transitionState` call.  `patient` is the row the JS function
returns (the freshly fetched row on failure or no-op, the updated row on a
real transition).  `wroteUpdate` records whether the UPDATE on the patients
table ran, `wroteAudit` whether the state_transitions INSERT ran. -/
structure TransResult where
  success : Bool
  patient : Option Patient
  errMsg : Option String
  wroteUpdate : Bool
  wroteAudit : Bool
deriving DecidableEq, Repr

/-- The column updates applied on a successful transition
(src/lib/state-machine/transitions.js lines 80–92): set `state`, and set the
opt-in / opt-out timestamps.  Note the JS guard `!patient.opted_in_at` is
always true because the SELECT on line 52 does not fetch `opted_in_at`, so
entry into ONBOARDING always stamps `opted_in_at`. -/
def applyTransitionUpdates (patient : Patient) (toState : PState) (now : Int) : Patient :=
  let p1 : Patient := { patient with state := toState }
  let p2 : Patient := if toState = ONBOARDING then { p1 with optedInAt := some now } else p1
  if toState = UNSUBSCRIBED then { p2 with optedOutAt := some now } else p2

/-- Shallow embedding of `transitionState` (src/lib/state-machine/transitions.js
lines 48–123).  Steps, in source order:
1. fetch the row (`fetched = none` models "Patient not found");
2. the STOP override: `toState == UNSUBSCRIBED && fromState != UNSUBSCRIBED`
   skips validation;
3. otherwise fail unless `toState` is in `VALID_TRANSITIONS[fromState]`;
4. same-state no-op check (`fromState === toState && toState !== DAILY_ACTIVE`);
5. update the row, stamping opt-in/opt-out timestamps;
6. append the audit row.
Database writes are modelled as succeeding; the JS `additionalUpdates`
argument is not used by any verified property and is omitted. -/
def transitionState (fetched : Option Patient) (toState : PState) (now : Int) : TransResult :=
  match fetched with
  | none => ⟨false, none, some "Patient not found", false, false⟩
  | some patient =>
    let fromState := patient.state
    if ¬(toState = UNSUBSCRIBED ∧ fromState ≠ UNSUBSCRIBED)
        ∧ toState ∉ VALID_TRANSITIONS fromState then
      ⟨false, some patient, some "Invalid transition", false, false⟩
    else if fromState = toState ∧ toState ≠ DAILY_ACTIVE then
      ⟨true, some patient, none, false, false⟩
    else
      ⟨true, some (applyTransitionUpdates patient toState now), none, true, true⟩

/-- Job statuses from the `job_status` enum of migration 001. -/
inductive JobStatus where
  | PENDING
  | PROCESSING
  | COMPLETED
  | FAILED
  | CANCELLED
deriving DecidableEq, Repr

/-- The `scheduled_jobs` columns that `markJobFailed` reads or writes.
`scheduledFor` and `processedAt` are milliseconds since epoch. -/
structure Job where
  status : JobStatus
  scheduledFor : Int
  attempts : Nat
  maxAttempts : Nat
  lastError : Option String
  processedAt : Option Int
deriving DecidableEq, Repr

/-- Shallow embedding of `markJobFailed` (scheduler service, src/unnamed/part_000
lines 386–422): increment `attempts`; while still below `max_attempts`, set the
job back to PENDING with a 5-minute backoff and record `last_error`; otherwise
mark it FAILED permanently, record `last_error` and stamp `processed_at`. -/
def markJobFailed (now : Int) (errorMessage : String) (job : Job) : Job :=
  let newAttempts := job.attempts + 1
  if newAttempts < job.maxAttempts then
    { job with
        status := JobStatus.PENDING
        attempts := newAttempts
        lastError := some errorMessage
        scheduledFor := now + 5 * 60 * 1000 }
  else
    { job with
        status := JobStatus.FAILED
        attempts := newAttempts
        lastError := some errorMessage
        processedAt := some now }

/-- The due-job predicate of `get_and_lock_due_jobs` (migration 003): the
dispatcher only ever claims rows with `status = PENDING` and
`scheduled_for <= now`. -/
def isDue (now : Int) (j : Job) : Bool :=
  j.status = JobStatus.PENDING ∧ j.scheduledFor ≤ now

/-- Repeated handler failures: fold `markJobFailed` over a list of
(failure time, error message) pairs, one per thrown handler invocation. -/
def failSeq (ts : List (Int × String)) (j : Job) : Job :=
  ts.foldl (fun j te => markJobFailed te.1 te.2 j) j

/-- Settled outcome of one promise in the `Promise.allSettled` batch of the
cron dispatch handler. -/
inductive Outcome where
  | fulfilled
  | rejected
deriving DecidableEq, Repr

/-- The terminal bookkeeping action `processJob` takes for a job. -/
inductive JobEffect where
  | markedFailed (msg : String)
  | markedCompleted
deriving DecidableEq, Repr

/-- The environment one `processJob` call runs in: whether the patient row
exists, whether the job type has a handler, and whether the handler throws
(`some msg` is the thrown error message). -/
structure JobRun where
  patientFound : Bool
  handlerKnown : Bool
  handlerError : Option String
deriving DecidableEq, Repr

/-- Shallow embedding of `processJob` (cron dispatch handler, third document
in src/docs/parse-time.js, lines 588–614): all per-job work sits inside
try/catch — a missing patient or unknown job type calls `markJobFailed` and
returns, a handler exception is caught, recorded via `markJobFailed`, and
the function returns normally.  The database mark operations are modelled as
total (they do not throw). -/
def processJob (r : JobRun) : Outcome × JobEffect :=
  if ¬ r.patientFound then
    (Outcome.fulfilled, JobEffect.markedFailed "Patient not found")
  else if ¬ r.handlerKnown then
    (Outcome.fulfilled, JobEffect.markedFailed "Unknown job type")
  else
    match r.handlerError with
    | some e => (Outcome.fulfilled, JobEffect.markedFailed e)
    | none => (Outcome.fulfilled, JobEffect.markedCompleted)

/-- The summary object built by the dispatch endpoint from the
`Promise.allSettled` results: `processed = jobs.length`, `succeeded` counts
fulfilled results, `failed` counts rejected results. -/
structure DispatchSummary where
  processed : Nat
  succeeded : Nat
  failed : Nat
deriving DecidableEq, Repr

/-- Summary computation of the dispatch handler over one claimed batch. -/
def dispatchSummary (runs : List JobRun) : DispatchSummary :=
  let results := runs.map (fun r => (processJob r).1)
  { processed := runs.length
    succeeded := (results.filter (fun o => o = Outcome.fulfilled)).length
    failed := (results.filter (fun o => o = Outcome.rejected)).length }

/-!
Scheduler time computation — `nextOccurrence(timeStr, timezone, afterDate)`
from the scheduler service (src/unnamed/part_000 lines 232–271).

Modelling choices.  Absolute instants and wall-clock readings are minutes
(`Int`); a timezone is its UTC-offset function `tz : Int → Int` (minutes
east of UTC as a function of the absolute instant), which is how an IANA
zone with daylight-saving transitions behaves.  `timeStr` is the parsed
pair `(hours, minutes)` (the JS splits on ":"), `afterDate` is `now`.
The host process runs in UTC (the deployment target for these serverless
functions), under which the JS steps reduce to:

* `localParts`/`localNow` — render `now` in the zone: `now + tz now`;
* `localTarget` — the same calendar date at `hours:minutes`, plus one day
  if that wall time has already passed (the floor-division `fdiv 1440`
  extracts the calendar date of a wall reading);
* `offsetMs = utcTarget - tzTarget` — with a UTC host, `utcTarget` reparses
  to `localTarget` itself and `tzTarget` to `localTarget + tz localTarget`,
  so `offsetMs = -(tz localTarget)`: the offset is recomputed from the
  TARGET wall date, not taken from `now`;
* result — `localTarget + offsetMs = localTarget - tz localTarget`.
-/

/-- Wall-clock reading of instant `t` in the zone `tz`. -/
def localWall (tz : Int → Int) (t : Int) : Int := t + tz t

/-- The `localTarget` computed by `nextOccurrence`: today's (or, if already
passed, tomorrow's) `hours:minutes` on the zone's wall clock. -/
def localTarget (tz : Int → Int) (hours minutes : Nat) (now : Int) : Int :=
  let lnow := localWall tz now
  let t0 := lnow.fdiv 1440 * 1440 + (hours * 60 + minutes)
  if t0 ≤ lnow then t0 + 1440 else t0

/-- Shallow embedding of `nextOccurrence`: the target wall time converted to
an absolute UTC instant using the offset recomputed at the target date. -/
def nextOccurrence (tz : Int → Int) (hours minutes : Nat) (now : Int) : Int :=
  localTarget tz hours minutes now - tz (localTarget tz hours minutes now)

/-- A concrete zone with one daylight-saving transition: offset UTC-300
before instant 100000, UTC-240 from then on (a spring-forward). -/
def dstZone (t : Int) : Int := if t < 100000 then -300 else -240

/-!
Classification pipeline — the AI parser document in src/docs/parse-time.js.

The fallback regexes use a small set of constructs (literals, alternation,
`?`, `\s*`, `\s+`, `.`, `.{0,10}`, character class `[1-5]`, word boundary
`\b`), so they are embedded via a pattern AST `Pat` with a backtracking
matcher and an unanchored search, mirroring JavaScript `RegExp.test`
semantics for these constructs.  The embedded-number pattern needs its
captured digit, so it gets a dedicated scanner with the same
leftmost-match, alternation-in-order semantics.
-/

/-- JS `String.prototype.trim`: strip whitespace from both ends. -/
def jsTrim (s : String) : String :=
  String.mk (((s.data.dropWhile Char.isWhitespace).reverse.dropWhile
    Char.isWhitespace).reverse)

/-- JS `String.prototype.toLowerCase` (ASCII inputs). -/
def toLowerString (s : String) : String := String.mk (s.data.map Char.toLower)

/-- JS word character for `\b`: ASCII letter, digit or underscore. -/
def isWordChar (c : Char) : Bool := c.isAlpha || c.isDigit || c = '_'

/-- JS `.` (no s flag): any character except a line terminator. -/
def isDotChar (c : Char) : Bool := c ≠ '\n' && c ≠ '\r'

/-- Pattern AST covering the regex constructs used by the fallback parser. -/
inductive Pat where
  | eps
  | chr (c : Char)
  | cls (p : Char → Bool)
  | seq (a b : Pat)
  | alt (a b : Pat)
  | opt (a : Pat)
  | manyCls (p : Char → Bool)
  | wb

/-- Is there a word boundary between `prev` (the character just before the
current position, `none` at the start) and the head of `s`? -/
def atBoundary (prev : Option Char) (s : List Char) : Bool :=
  let pw := match prev with | none => false | some c => isWordChar c
  let nw := match s with | [] => false | c :: _ => isWordChar c
  pw != nw

/-- Backtracking for `manyCls`: try the continuation after each prefix of
characters drawn from the class. -/
def manyClsAux (p : Char → Bool) : Option Char → List Char →
    (Option Char → List Char → Bool) → Bool
  | prev, [], k => k prev []
  | prev, c :: rest, k =>
    k prev (c :: rest) || (p c && manyClsAux p (some c) rest k)

/-- Backtracking matcher in continuation-passing style: `mtch r prev s k`
is true when some prefix of `s` matches `r` (with `prev` the character
before `s`) and `k` accepts the remainder. -/
def mtch : Pat → Option Char → List Char → (Option Char → List Char → Bool) → Bool
  | .eps, prev, s, k => k prev s
  | .chr c, _, s, k =>
    match s with
    | [] => false
    | x :: rest => x == c && k (some x) rest
  | .cls p, _, s, k =>
    match s with
    | [] => false
    | x :: rest => p x && k (some x) rest
  | .seq a b, prev, s, k => mtch a prev s (fun prev2 s2 => mtch b prev2 s2 k)
  | .alt a b, prev, s, k => mtch a prev s k || mtch b prev s k
  | .opt a, prev, s, k => mtch a prev s k || k prev s
  | .manyCls p, prev, s, k => manyClsAux p prev s k
  | .wb, prev, s, k => atBoundary prev s && k prev s

/-- Unanchored search: does the pattern match starting at any position? -/
def searchFrom (r : Pat) : Option Char → List Char → Bool
  | prev, s =>
    mtch r prev s (fun _ _ => true) ||
      match s with
      | [] => false
      | c :: rest => searchFrom r (some c) rest

/-- `RegExp.test` over a whole string. -/
def rtest (r : Pat) (s : String) : Bool := searchFrom r none s.data

/-- Literal string pattern. -/
def strPat (s : String) : Pat :=
  s.data.foldr (fun c acc => Pat.seq (Pat.chr c) acc) Pat.eps

/-- Alternation of a list of patterns, in order. -/
def altList : List Pat → Pat
  | [] => Pat.cls (fun _ => false)
  | [p] => p
  | p :: rest => Pat.alt p (altList rest)

/-- Sequence of a list of patterns. -/
def seqList : List Pat → Pat
  | [] => Pat.eps
  | [p] => p
  | p :: rest => Pat.seq p (seqList rest)

/-- The `.?` construct. -/
def optAny : Pat := Pat.opt (Pat.cls isDotChar)

/-- The `\s*` construct. -/
def wsStar : Pat := Pat.manyCls Char.isWhitespace

/-- The `\s+` construct. -/
def wsPlus : Pat := Pat.seq (Pat.cls Char.isWhitespace) wsStar

/-- The `.{0,n}` construct. -/
def dotUpTo : Nat → Pat
  | 0 => Pat.eps
  | n + 1 => Pat.opt (Pat.seq (Pat.cls isDotChar) (dotUpTo n))

/-- Wrap a pattern in the `\b(...)\b` frame every fallback category uses. -/
def bounded (p : Pat) : Pat := Pat.seq Pat.wb (Pat.seq p Pat.wb)

/-- Level-1 pattern (source line 272): `\b(no headache|headache.?free|
didn.?t notice|clear(?:\s+head)?|perfect|amazing|great day|good day|
no complaints|feeling good|all good)\b`. -/
def l1Pat : Pat := bounded (altList [
  strPat "no headache",
  seqList [strPat "headache", optAny, strPat "free"],
  seqList [strPat "didn", optAny, strPat "t notice"],
  Pat.seq (strPat "clear") (Pat.opt (Pat.seq wsPlus (strPat "head"))),
  strPat "perfect", strPat "amazing", strPat "great day", strPat "good day",
  strPat "no complaints", strPat "feeling good", strPat "all good"])

/-- Level-5 pattern (source line 277): `\b(in bed|couldn.?t function|
couldn.?t do anything|worst|debilitating|bedridden|couldn.?t move|
couldn.?t get up|terrible)\b`. -/
def l5Pat : Pat := bounded (altList [
  strPat "in bed",
  seqList [strPat "couldn", optAny, strPat "t function"],
  seqList [strPat "couldn", optAny, strPat "t do anything"],
  strPat "worst", strPat "debilitating", strPat "bedridden",
  seqList [strPat "couldn", optAny, strPat "t move"],
  seqList [strPat "couldn", optAny, strPat "t get up"],
  strPat "terrible"])

/-- Level-4 pattern (source line 282): `\b(cancel|skipped|skip\b|
left.{0,10}early|couldn.?t go|had to leave|called (?:out|off|in sick)|
went home|missed work|missed school)\b`. -/
def l4Pat : Pat := bounded (altList [
  strPat "cancel", strPat "skipped",
  Pat.seq (strPat "skip") Pat.wb,
  seqList [strPat "left", dotUpTo 10, strPat "early"],
  seqList [strPat "couldn", optAny, strPat "t go"],
  strPat "had to leave",
  Pat.seq (strPat "called ") (altList [strPat "out", strPat "off", strPat "in sick"]),
  strPat "went home", strPat "missed work", strPat "missed school"])

/-- Level-3 pushed-through pattern (source line 287):
`\b(push.?(?:ed)?\s*through|rough|managed|got through|tough day|struggled|
hard day|powered through)\b`. -/
def l3PushPat : Pat := bounded (altList [
  seqList [strPat "push", optAny, Pat.opt (strPat "ed"), wsStar, strPat "through"],
  strPat "rough", strPat "managed", strPat "got through", strPat "tough day",
  strPat "struggled", strPat "hard day", strPat "powered through"])

/-- Level-3 medication pattern (source line 292): `\b(took (?:an? )?
(?:excedrin|tylenol|advil|ibuprofen|aleve|imitrex|sumatriptan|triptan|
medication|medicine|pill|med))\b`. -/
def l3MedPat : Pat := bounded (
  Pat.seq (strPat "took ")
    (Pat.seq (Pat.opt (seqList [Pat.chr 'a', Pat.opt (Pat.chr 'n'), Pat.chr ' ']))
      (altList [strPat "excedrin", strPat "tylenol", strPat "advil",
        strPat "ibuprofen", strPat "aleve", strPat "imitrex",
        strPat "sumatriptan", strPat "triptan", strPat "medication",
        strPat "medicine", strPat "pill", strPat "med"])))

/-- Level-2 explicit-presence pattern (source line 297): `\b(mild|background|
there but|noticed but|slight|dull|low.?grade|lingering|nagging)\b`. -/
def l2PresPat : Pat := bounded (altList [
  strPat "mild", strPat "background", strPat "there but", strPat "noticed but",
  strPat "slight", strPat "dull",
  seqList [strPat "low", optAny, strPat "grade"],
  strPat "lingering", strPat "nagging"])

/-- Level-2 ambiguous-positive pattern (source line 302): `\b(fine|okay|ok|
not bad|decent|alright|good|so.?so|meh|not great)\b`. -/
def l2AmbPat : Pat := bounded (altList [
  strPat "fine", strPat "okay", strPat "ok", strPat "not bad", strPat "decent",
  strPat "alright", strPat "good",
  seqList [strPat "so", optAny, strPat "so"],
  strPat "meh", strPat "not great"])

/-- Does the first list start with the second? -/
def startsWithChars : List Char → List Char → Bool
  | [], _ => true
  | _ :: _, [] => false
  | a :: as, b :: bs => a == b && startsWithChars as bs

/-- Keywords of the embedded-number pattern
`\b(?:level|a|was|it's|its)\s*([1-5])\b` (source line 261), in the source's
alternation order. -/
def embeddedKeywords : List String := ["level", "a", "was", "it's", "its"]

/-- Try one keyword alternative at the current position: consume the
keyword, consume `\s*` (the successful split is unique because `[1-5]`
and `\s` are disjoint), then require a digit 1–5 followed by a word
boundary. -/
def tryOneKeyword (kw : String) (s : List Char) : Option Nat :=
  if startsWithChars kw.data s then
    let afterWs := (s.drop kw.length).dropWhile Char.isWhitespace
    match afterWs with
    | d :: rest =>
      if ('1' ≤ d && d ≤ '5')
          && (match rest with | [] => true | c :: _ => !isWordChar c) then
        some (d.toNat - '0'.toNat)
      else none
    | [] => none
  else none

/-- Try the keyword alternatives in order at the current position. -/
def tryKeywords : List String → List Char → Option Nat
  | [], _ => none
  | kw :: rest, s =>
    match tryOneKeyword kw s with
    | some n => some n
    | none => tryKeywords rest s

/-- Leftmost search for the embedded-number pattern.  `prevWord` tracks
whether the character before the current position is a word character (the
leading `\b` requires it not to be, since every keyword starts with a word
character). -/
def embeddedScan : Bool → List Char → Option Nat
  | _, [] => none
  | prevWord, c :: rest =>
    match (if prevWord then none else tryKeywords embeddedKeywords (c :: rest)) with
    | some n => some n
    | none => embeddedScan (isWordChar c) rest

/-- The embedded-number extraction `lower.match(/\b(?:level|a|was|it's|its)
\s*([1-5])\b/)`, returning the captured digit of the leftmost match. -/
def embeddedNum (s : String) : Option Nat := embeddedScan false s.data

/-- The `text.toLowerCase().trim()` normalisation at the top of
`regexFallback`. -/
def normalizeText (text : String) : String := jsTrim (toLowerString text)

/-- A fallback classification result: level, fixed confidence, rationale. -/
structure FBResult where
  level : Nat
  confidence : ℚ
  reasoning : String
deriving DecidableEq, Repr

/-- Shallow embedding of `regexFallback` (AI parser document,
src/docs/parse-time.js lines 257–307): the source's if-chain, testing the
embedded-number pattern first and then the seven keyword categories in
source order, returning the first match's level and fixed confidence;
`none` when nothing matches. -/
def regexFallback (text : String) : Option FBResult :=
  let lower := normalizeText text
  match embeddedNum lower with
  | some lvl => some ⟨lvl, 90/100, "Extracted embedded number: " ++ toString lvl⟩
  | none =>
    if rtest l1Pat lower then some ⟨1, 85/100, "Regex: no headache keywords"⟩
    else if rtest l5Pat lower then some ⟨5, 88/100, "Regex: total disability keywords"⟩
    else if rtest l4Pat lower then some ⟨4, 85/100, "Regex: activity cancellation keywords"⟩
    else if rtest l3PushPat lower then some ⟨3, 83/100, "Regex: reduced function keywords"⟩
    else if rtest l3MedPat lower then some ⟨3, 75/100, "Regex: acute medication use implies ≥ Level 3"⟩
    else if rtest l2PresPat lower then some ⟨2, 82/100, "Regex: present but no disability"⟩
    else if rtest l2AmbPat lower then some ⟨2, 65/100, "Regex: ambiguous response defaults to Level 2"⟩
    else none

/-- Modelled from the spec's words (C6, amended to include the level-1
category present in the code): the ordered fallback category table —
pattern, level, fixed confidence, rationale. -/
def fallbackCategories : List (Pat × Nat × ℚ × String) := [
  (l1Pat, 1, 85/100, "Regex: no headache keywords"),
  (l5Pat, 5, 88/100, "Regex: total disability keywords"),
  (l4Pat, 4, 85/100, "Regex: activity cancellation keywords"),
  (l3PushPat, 3, 83/100, "Regex: reduced function keywords"),
  (l3MedPat, 3, 75/100, "Regex: acute medication use implies ≥ Level 3"),
  (l2PresPat, 2, 82/100, "Regex: present but no disability"),
  (l2AmbPat, 2, 65/100, "Regex: ambiguous response defaults to Level 2")]

/-- First matching category of an ordered table, as the spec describes:
"tested in priority order ... returning the first match's level and fixed
confidence". -/
def firstCategory : List (Pat × Nat × ℚ × String) → String → Option FBResult
  | [], _ => none
  | (p, lvl, conf, why) :: rest, s =>
    if rtest p s then some ⟨lvl, conf, why⟩ else firstCategory rest s

/-- Spec-shaped fallback: embedded numbers first, then the first matching
category of the ordered table; `none` when nothing matches. -/
def regexFallbackSpec (text : String) : Option FBResult :=
  let lower := normalizeText text
  match embeddedNum lower with
  | some lvl => some ⟨lvl, 90/100, "Extracted embedded number: " ++ toString lvl⟩
  | none => firstCategory fallbackCategories lower

/-- Classification method of a parse result. -/
inductive Method where
  | NUMERIC
  | AI_PARSED
  | REGEX_FALLBACK
deriving DecidableEq, Repr

/-- Caller-facing action of a parse result. -/
inductive Action where
  | ACCEPT
  | CLARIFY
  | REPROMPT
deriving DecidableEq, Repr

/-- Named accept threshold (source line 167). -/
def CONFIDENCE_ACCEPT : ℚ := 80/100

/-- Named clarify threshold (source line 168). -/
def CONFIDENCE_CLARIFY : ℚ := 60/100

/-- Shallow embedding of `routeByConfidence` (source lines 448–452). -/
def routeByConfidence (confidence : ℚ) : Action :=
  if confidence ≥ CONFIDENCE_ACCEPT then Action.ACCEPT
  else if confidence ≥ CONFIDENCE_CLARIFY then Action.CLARIFY
  else Action.REPROMPT

/-- The structured triple returned by the external classifier before
validation.  Integrality of `level` (JS `Number.isInteger`) is carried by
the `Int` type. -/
structure AIReply where
  level : Int
  confidence : ℚ
  reasoning : String
deriving DecidableEq, Repr

/-- JS `Math.round(x * 100) / 100` (round half towards positive infinity). -/
def round2 (q : ℚ) : ℚ := (Int.floor (q * 100 + 1/2) : ℚ) / 100

/-- Shallow embedding of `classifyWithAI` (source lines 324–370): the input
`none` models an API failure/timeout/abort (a thrown error); a reply with
level outside 1–5 or confidence outside [0,1] is also a throw; a valid reply
is returned with its confidence rounded to two decimal places. -/
def classifyWithAI (reply : Option AIReply) : Option (Nat × ℚ × String) :=
  match reply with
  | none => none
  | some r =>
    if 1 ≤ r.level ∧ r.level ≤ 5 ∧ 0 ≤ r.confidence ∧ r.confidence ≤ 1 then
      some (r.level.toNat, round2 r.confidence, r.reasoning)
    else none

/-- A classified response as returned by `parseResponse`. -/
structure ParseResult where
  level : Nat
  confidence : ℚ
  reasoning : String
  method : Method
  action : Action
deriving DecidableEq, Repr

/-- The `^([1-5])$` full-string numeric check of `parseResponse` step 1. -/
def numericMatch (s : String) : Option Nat :=
  match s.data with
  | [c] => if '1' ≤ c ∧ c ≤ '5' then some (c.toNat - '0'.toNat) else none
  | _ => none

/-- Shallow embedding of `parseResponse` (source lines 395–440).  `text` is
the raw input (`none` models a null/non-string argument); `aiReply` is what
the external classifier would answer (`none` models an API failure).  Steps
in source order: null/empty guard, numeric passthrough, external
classification, regex fallback, unparseable. -/
def parseResponse (text : Option String) (aiReply : Option AIReply) : Option ParseResult :=
  match text with
  | none => none
  | some t =>
    let cleaned := jsTrim t
    if cleaned = "" then none
    else
      match numericMatch cleaned with
      | some n =>
        some ⟨n, 1, "Direct numeric input", Method.NUMERIC, Action.ACCEPT⟩
      | none =>
        match classifyWithAI aiReply with
        | some (lvl, conf, reas) =>
          some ⟨lvl, conf, reas, Method.AI_PARSED, routeByConfidence conf⟩
        | none =>
          match regexFallback cleaned with
          | some r =>
            some ⟨r.level, r.confidence, r.reasoning, Method.REGEX_FALLBACK,
              routeByConfidence r.confidence⟩
          | none => none

end HeadacheVault

namespace HeadacheVault

open PState

/-- C1: the code rejects every same-state call except DAILY_ACTIVE.
This theorem documents the divergence between the code and the spec's
same-state no-op rule: for every state `s` other than DAILY_ACTIVE, a
`transitionState` call with `toState = fromState = s` returns an
InvalidTransition failure (no update, no audit row) rather than the no-op
success the spec requires; the same-state no-op branch on line 76 of
src/lib/state-machine/transitions.js is unreachable because validation on
lines 62–73 runs first and no state other than DAILY_ACTIVE appears in its
own allowed set.  The DAILY_ACTIVE part of the claim does hold: a same-state
DAILY_ACTIVE call executes as a full transition with an audit write. -/
theorem c1_same_state_rejected_not_noop
    (p : Patient) (now : Int)
    (h : p.state ≠ DAILY_ACTIVE) :
    transitionState (some p) p.state now
      = ⟨false, some p, some "Invalid transition", false, false⟩
    ∧ ∀ q : Patient, q.state = DAILY_ACTIVE →
        transitionState (some q) DAILY_ACTIVE now
          = ⟨true, some (applyTransitionUpdates q DAILY_ACTIVE now), none, true, true⟩ := by
  constructor
  · have hmem : p.state ∉ VALID_TRANSITIONS p.state := by
      cases hs : p.state <;> simp_all [VALID_TRANSITIONS]
    simp only [transitionState]
    rw [if_pos]
    constructor
    · rintro ⟨h1, h2⟩
      exact h2 h1
    · exact hmem
  · intro q hq
    simp only [transitionState]
    rw [if_neg, if_neg]
    · rintro ⟨h1, h2⟩
      exact h2 rfl
    · rintro ⟨h1, h2⟩
      rw [hq] at h2
      simp [VALID_TRANSITIONS] at h2

/-- Witness for C1 at the claim's own instance: a patient already
UNSUBSCRIBED, asked to transition to UNSUBSCRIBED, gets a failure. -/
theorem c1_same_state_rejected_not_noop_witness :
    transitionState (some ⟨UNSUBSCRIBED, none, some 5⟩) UNSUBSCRIBED 99
      = ⟨false, some ⟨UNSUBSCRIBED, none, some 5⟩, some "Invalid transition", false, false⟩ :=
  (c1_same_state_rejected_not_noop ⟨UNSUBSCRIBED, none, some 5⟩ 99 (by decide)).1

/-- C2: for every (fromState, toState) pair with toState outside fromState's
allowed set and toState ≠ UNSUBSCRIBED, `transitionState` returns an
InvalidTransition failure, does not update the subject row and writes no
audit row. -/
theorem c2_invalid_transition_no_write
    (p : Patient) (toState : PState) (now : Int)
    (hmem : toState ∉ VALID_TRANSITIONS p.state)
    (hu : toState ≠ UNSUBSCRIBED) :
    transitionState (some p) toState now
      = ⟨false, some p, some "Invalid transition", false, false⟩ := by
  simp only [transitionState]
  rw [if_pos]
  constructor
  · rintro ⟨h1, _⟩
    exact hu h1
  · exact hmem

/-- Witness for C2: ENROLLED → PAUSED is not in the table and fails cleanly. -/
theorem c2_invalid_transition_no_write_witness :
    transitionState (some ⟨ENROLLED, none, none⟩) PAUSED 7
      = ⟨false, some ⟨ENROLLED, none, none⟩, some "Invalid transition", false, false⟩ :=
  c2_invalid_transition_no_write ⟨ENROLLED, none, none⟩ PAUSED 7 (by decide) (by decide)

/-- C3: UNSUBSCRIBED is reachable as an override from every non-terminal
state — the transition succeeds even when UNSUBSCRIBED is not listed in the
from-state's allowed set, updates the row, stamps `opted_out_at`, and writes
an audit row — and UNSUBSCRIBED is terminal: from UNSUBSCRIBED no call to
any other state succeeds. -/
theorem c3_unsubscribe_override_and_terminal
    (p : Patient) (now : Int)
    (h : p.state ≠ UNSUBSCRIBED) :
    (transitionState (some p) UNSUBSCRIBED now
        = ⟨true, some (applyTransitionUpdates p UNSUBSCRIBED now), none, true, true⟩
      ∧ (applyTransitionUpdates p UNSUBSCRIBED now).optedOutAt = some now
      ∧ (applyTransitionUpdates p UNSUBSCRIBED now).state = UNSUBSCRIBED)
    ∧ ∀ (q : Patient) (toState : PState), q.state = UNSUBSCRIBED →
        toState ≠ UNSUBSCRIBED →
        (transitionState (some q) toState now).success = false := by
  constructor
  · refine ⟨?_, ?_, ?_⟩
    · simp only [transitionState]
      rw [if_neg (by simp [h]), if_neg (by simp [h])]
    · simp [applyTransitionUpdates]
    · simp only [applyTransitionUpdates]
      split <;> split <;> simp_all
  · intro q toState hq ht
    have hmem : toState ∉ VALID_TRANSITIONS q.state := by
      rw [hq]; simp [VALID_TRANSITIONS]
    rw [c2_invalid_transition_no_write q toState now hmem ht]

/-- Witness for C3: a DAILY_ACTIVE patient unsubscribes successfully, and an
UNSUBSCRIBED patient cannot move to DAILY_ACTIVE. -/
theorem c3_unsubscribe_override_and_terminal_witness :
    transitionState (some ⟨DAILY_ACTIVE, some 1, none⟩) UNSUBSCRIBED 42
      = ⟨true, some ⟨UNSUBSCRIBED, some 1, some 42⟩, none, true, true⟩
    ∧ (transitionState (some ⟨UNSUBSCRIBED, some 1, some 42⟩) DAILY_ACTIVE 43).success = false := by
  have h := c3_unsubscribe_override_and_terminal ⟨DAILY_ACTIVE, some 1, none⟩ 42 (by decide)
  refine ⟨?_, ?_⟩
  · have h1 := h.1.1
    simpa [applyTransitionUpdates] using h1
  · have h2 := (c3_unsubscribe_override_and_terminal ⟨DAILY_ACTIVE, some 1, none⟩ 43 (by decide)).2
    exact h2 ⟨UNSUBSCRIBED, some 1, some 42⟩ DAILY_ACTIVE rfl (by decide)

/-- Helper: one failure always increments `attempts` and never changes
`max_attempts`. -/
theorem markJobFailed_counters (now : Int) (e : String) (j : Job) :
    (markJobFailed now e j).attempts = j.attempts + 1
    ∧ (markJobFailed now e j).maxAttempts = j.maxAttempts := by
  simp only [markJobFailed]
  split <;> exact ⟨rfl, rfl⟩

/-- Helper: the status after one failure is PENDING below the cap and FAILED
at or above it. -/
theorem markJobFailed_status (now : Int) (e : String) (j : Job) :
    (markJobFailed now e j).status
      = (if j.attempts + 1 < j.maxAttempts then JobStatus.PENDING
         else JobStatus.FAILED) := by
  simp only [markJobFailed]
  split <;> simp_all

/-- Helper: as long as the total number of failures does not exceed
`max_attempts`, each failure adds one attempt, and the status after a
non-empty run of failures is PENDING until the count reaches `max_attempts`,
at which point it is FAILED.  `maxAttempts` is never modified. -/
theorem failSeq_spec (ts : List (Int × String)) (j : Job)
    (hle : j.attempts + ts.length ≤ j.maxAttempts) (hne : ts ≠ []) :
    (failSeq ts j).attempts = j.attempts + ts.length
    ∧ (failSeq ts j).maxAttempts = j.maxAttempts
    ∧ (failSeq ts j).status
        = (if j.attempts + ts.length = j.maxAttempts then JobStatus.FAILED
           else JobStatus.PENDING) := by
  induction ts generalizing j with
  | nil => exact absurd rfl hne
  | cons te rest ih =>
    have hstep : failSeq (te :: rest) j = failSeq rest (markJobFailed te.1 te.2 j) := rfl
    have hc := markJobFailed_counters te.1 te.2 j
    by_cases hrest : rest = []
    · subst hrest
      have hfs : failSeq (te :: []) j = markJobFailed te.1 te.2 j := rfl
      simp only [List.length_cons, List.length_nil] at hle ⊢
      rw [hfs]
      refine ⟨by rw [hc.1], by rw [hc.2], ?_⟩
      rw [markJobFailed_status]
      by_cases hlt : j.attempts + 1 < j.maxAttempts
      · rw [if_pos hlt, if_neg (by omega)]
      · rw [if_neg hlt, if_pos (by omega)]
    · have hlen1 : 0 < rest.length := List.length_pos.mpr hrest
      simp only [List.length_cons] at hle ⊢
      have hlt : j.attempts + 1 < j.maxAttempts := by omega
      have hih := ih (markJobFailed te.1 te.2 j) (by rw [hc.1, hc.2]; omega) hrest
      rw [hstep]
      refine ⟨?_, ?_, ?_⟩
      · rw [hih.1, hc.1]; omega
      · rw [hih.2.1, hc.2]
      · rw [hih.2.2, hc.1, hc.2]
        by_cases hfin : j.attempts + 1 + rest.length = j.maxAttempts
        · rw [if_pos hfin, if_pos (by omega)]
        · rw [if_neg hfin, if_neg (by omega)]

/-- C8: when a handler throws, `markJobFailed` increments `attempts`; below
`max_attempts` the job goes back to PENDING with `scheduled_for` pushed
5 minutes (300000 ms) into the future and `last_error` recorded; otherwise it
becomes FAILED permanently with `last_error` recorded.  Consequently a fresh
job whose handler throws `max_attempts` times ends FAILED with
`attempts = max_attempts`, and is never claimed again by the dispatcher's
due-job query (which only selects PENDING rows). -/
theorem c8_retry_ladder_ends_failed
    (j : Job) (now : Int) (e : String)
    (ts : List (Int × String)) (j0 : Job)
    (h0 : j0.attempts = 0) (hlen : ts.length = j0.maxAttempts)
    (hpos : 1 ≤ j0.maxAttempts) :
    (j.attempts + 1 < j.maxAttempts →
      markJobFailed now e j
        = { j with
              status := JobStatus.PENDING
              attempts := j.attempts + 1
              lastError := some e
              scheduledFor := now + 300000 })
    ∧ (¬ j.attempts + 1 < j.maxAttempts →
      markJobFailed now e j
        = { j with
              status := JobStatus.FAILED
              attempts := j.attempts + 1
              lastError := some e
              processedAt := some now })
    ∧ (failSeq ts j0).status = JobStatus.FAILED
    ∧ (failSeq ts j0).attempts = j0.maxAttempts
    ∧ ∀ t : Int, isDue t (failSeq ts j0) = false := by
  have hne : ts ≠ [] := by
    intro hnil
    rw [hnil] at hlen
    simp at hlen
    omega
  have hspec := failSeq_spec ts j0 (by omega) hne
  refine ⟨?_, ?_, ?_, ?_, ?_⟩
  · intro hlt
    simp only [markJobFailed]
    rw [if_pos hlt]
    norm_num
  · intro hge
    simp only [markJobFailed]
    rw [if_neg hge]
  · rw [hspec.2.2, if_pos (by omega)]
  · rw [hspec.1]; omega
  · intro t
    simp only [isDue]
    rw [hspec.2.2, if_pos (by omega)]
    simp

/-- Witness for C8: a fresh job with `max_attempts = 3` whose handler throws
three times ends FAILED with three attempts and is no longer due. -/
theorem c8_retry_ladder_ends_failed_witness :
    (failSeq [(0, "e1"), (400000, "e2"), (800000, "e3")]
        ⟨JobStatus.PROCESSING, 0, 0, 3, none, none⟩).status = JobStatus.FAILED
    ∧ (failSeq [(0, "e1"), (400000, "e2"), (800000, "e3")]
        ⟨JobStatus.PROCESSING, 0, 0, 3, none, none⟩).attempts = 3
    ∧ isDue 900000 (failSeq [(0, "e1"), (400000, "e2"), (800000, "e3")]
        ⟨JobStatus.PROCESSING, 0, 0, 3, none, none⟩) = false := by
  have h := c8_retry_ladder_ends_failed
    ⟨JobStatus.PROCESSING, 0, 0, 3, none, none⟩ 0 "e"
    [(0, "e1"), (400000, "e2"), (800000, "e3")]
    ⟨JobStatus.PROCESSING, 0, 0, 3, none, none⟩
    rfl rfl (by decide)
  exact ⟨h.2.2.1, h.2.2.2.1, h.2.2.2.2 900000⟩

/-- C10: `processJob` catches every per-job exception internally, so no
promise in the batch is ever rejected: for every dispatcher run the summary
has `failed = 0` and `succeeded = processed`, regardless of how many handlers
threw. -/
theorem c10_dispatch_failed_always_zero (runs : List JobRun) :
    (dispatchSummary runs).failed = 0
    ∧ (dispatchSummary runs).succeeded = (dispatchSummary runs).processed
    ∧ ∀ r : JobRun, (processJob r).1 = Outcome.fulfilled := by
  have hful : ∀ r : JobRun, (processJob r).1 = Outcome.fulfilled := by
    intro r
    simp only [processJob]
    split
    · rfl
    · split
      · rfl
      · cases r.handlerError <;> rfl
  refine ⟨?_, ?_, hful⟩
  · simp only [dispatchSummary]
    induction runs with
    | nil => rfl
    | cons r rest ih =>
      simp only [List.map, List.filter, hful r]
      simpa using ih
  · simp only [dispatchSummary]
    induction runs with
    | nil => rfl
    | cons r rest ih =>
      simp only [List.map, List.filter, hful r]
      simpa using ih

/-- C9: the code does NOT always fire at the requested wall-clock time
across a daylight-saving transition.  `nextOccurrence` evaluates the zone
offset at the target wall reading parsed as a UTC instant
(`offsetMs = utcTarget - tzTarget` computed from `localTarget`), and for a
zone west of UTC that pseudo-instant still precedes the transition's UTC
instant for up to the new |offset| of wall time after the switch — there
the old offset is used and the fire instant is shifted late by exactly the
DST delta.

In `dstZone` (offset −300 before instant 100000, −240 after; the skipped
wall window is [99700, 99760)): with `now = 99000` (wall 98700) and
preferred time 8:20, the next 8:20 wall reading is 99860 — a well-defined
local time, realised by instant 100100 and outside the skipped window —
but the code fires at 100160, whose wall reading is 99920 = 9:20, one
hour late: the gap equals the zone's DST delta.  For contrast, the final
two conjuncts show a 13:00 request across the same transition (target wall
100140, past the transition's UTC instant) does fire correctly, so the
failure is the post-transition window, not every crossing. -/
theorem c9_nextOccurrence_shifted_by_dst_delta :
    localWall dstZone 99000 = 98700
    ∧ localTarget dstZone 8 20 99000 = 99860
    ∧ localTarget dstZone 8 20 99000 % 1440 = 8 * 60 + 20
    ∧ localWall dstZone 100100 = 99860
    ∧ nextOccurrence dstZone 8 20 99000 = 100160
    ∧ localWall dstZone (nextOccurrence dstZone 8 20 99000) % 1440 = 9 * 60 + 20
    ∧ localWall dstZone (nextOccurrence dstZone 8 20 99000)
        - localTarget dstZone 8 20 99000 = dstZone 100160 - dstZone 99000
    ∧ nextOccurrence dstZone 13 0 99500 = 100380
    ∧ localWall dstZone (nextOccurrence dstZone 13 0 99500) % 1440 = 13 * 60 := by
  decide

/-- Helper: every result `parseResponse` returns carries the action that
`routeByConfidence` assigns to its confidence, whichever step produced it
(the NUMERIC branch hard-codes ACCEPT, which agrees with routing
confidence 1.0). -/
theorem parseResponse_action_route (text : Option String) (aiReply : Option AIReply)
    (r : ParseResult) (hr : parseResponse text aiReply = some r) :
    r.action = routeByConfidence r.confidence := by
  cases text with
  | none => simp [parseResponse] at hr
  | some t =>
    simp only [parseResponse] at hr
    by_cases hcl : jsTrim t = ""
    · rw [if_pos hcl] at hr
      exact absurd hr (by simp)
    · rw [if_neg hcl] at hr
      cases hnum : numericMatch (jsTrim t) with
      | some n =>
        simp only [hnum, Option.some.injEq] at hr
        subst hr
        show Action.ACCEPT = routeByConfidence 1
        norm_num [routeByConfidence, CONFIDENCE_ACCEPT]
      | none =>
        simp only [hnum] at hr
        cases hai : classifyWithAI aiReply with
        | some v =>
          obtain ⟨lvl, conf, reas⟩ := v
          simp only [hai, Option.some.injEq] at hr
          subst hr
          rfl
        | none =>
          simp only [hai] at hr
          cases hfb : regexFallback (jsTrim t) with
          | some fb =>
            simp only [hfb, Option.some.injEq] at hr
            subst hr
            rfl
          | none => simp [hfb] at hr

/-- C4: the confidence bands of `routeByConfidence` — ACCEPT iff the
confidence is at least the 0.80 accept threshold, CLARIFY iff it is at least
the 0.60 clarify threshold but below 0.80, REPROMPT iff it is below 0.60
(both lower bounds inclusive: 0.80 routes ACCEPT, 0.79 and 0.60 CLARIFY,
0.59 REPROMPT) — and every result `parseResponse` produces, from numeric
passthrough, the external classifier or the regex fallback, carries exactly
the action routed from its confidence. -/
theorem c4_confidence_routing
    (c : ℚ) (text : Option String) (aiReply : Option AIReply) (r : ParseResult)
    (hr : parseResponse text aiReply = some r) :
    (routeByConfidence c = Action.ACCEPT ↔ c ≥ CONFIDENCE_ACCEPT)
    ∧ (routeByConfidence c = Action.CLARIFY ↔ c ≥ CONFIDENCE_CLARIFY ∧ c < CONFIDENCE_ACCEPT)
    ∧ (routeByConfidence c = Action.REPROMPT ↔ c < CONFIDENCE_CLARIFY)
    ∧ r.action = routeByConfidence r.confidence
    ∧ routeByConfidence (80/100) = Action.ACCEPT
    ∧ routeByConfidence (79/100) = Action.CLARIFY
    ∧ routeByConfidence (60/100) = Action.CLARIFY
    ∧ routeByConfidence (59/100) = Action.REPROMPT := by
  refine ⟨?_, ?_, ?_, parseResponse_action_route text aiReply r hr,
    by norm_num [routeByConfidence, CONFIDENCE_ACCEPT, CONFIDENCE_CLARIFY],
    by norm_num [routeByConfidence, CONFIDENCE_ACCEPT, CONFIDENCE_CLARIFY],
    by norm_num [routeByConfidence, CONFIDENCE_ACCEPT, CONFIDENCE_CLARIFY],
    by norm_num [routeByConfidence, CONFIDENCE_ACCEPT, CONFIDENCE_CLARIFY]⟩
  · simp only [routeByConfidence]
    by_cases h1 : c ≥ CONFIDENCE_ACCEPT
    · simp [h1]
    · rw [if_neg h1]
      by_cases h2 : c ≥ CONFIDENCE_CLARIFY
      · simp [h1, h2]
      · simp [h1, h2]
  · simp only [routeByConfidence]
    by_cases h1 : c ≥ CONFIDENCE_ACCEPT
    · simp [h1, not_lt.mpr h1]
    · rw [if_neg h1]
      by_cases h2 : c ≥ CONFIDENCE_CLARIFY
      · simp [h2, lt_of_not_ge h1]
      · simp [h2]
  · simp only [routeByConfidence]
    by_cases h1 : c ≥ CONFIDENCE_ACCEPT
    · have hnl : ¬ (c < CONFIDENCE_CLARIFY) := by
        simp only [CONFIDENCE_ACCEPT, CONFIDENCE_CLARIFY, ge_iff_le] at *
        push_neg
        linarith
      simp [h1, hnl]
    · rw [if_neg h1]
      by_cases h2 : c ≥ CONFIDENCE_CLARIFY
      · simp [h2, not_lt.mpr h2]
      · simp [h2, lt_of_not_ge h2]

/-- Witness for C4: 0.79 routes to CLARIFY, and the numeric parse of "3"
(confidence 1.0) carries the routed action. -/
theorem c4_confidence_routing_witness :
    routeByConfidence (79/100) = Action.CLARIFY
    ∧ (⟨3, 1, "Direct numeric input", Method.NUMERIC, Action.ACCEPT⟩
        : ParseResult).action
      = routeByConfidence ((⟨3, 1, "Direct numeric input", Method.NUMERIC,
          Action.ACCEPT⟩ : ParseResult).confidence) :=
  have h := c4_confidence_routing (79/100) (some "3") none
    ⟨3, 1, "Direct numeric input", Method.NUMERIC, Action.ACCEPT⟩ rfl
  ⟨h.2.2.2.2.2.1, h.2.2.2.1⟩

/-- C5: numeric passthrough — when the trimmed text is exactly one of
"1".."5", `parseResponse` returns that level with confidence 1.0, method
NUMERIC and action ACCEPT for EVERY classifier behaviour (so no external
call is consulted); null and whitespace-only input return null. -/
theorem c5_numeric_passthrough
    (n : Nat) (hn1 : 1 ≤ n) (hn5 : n ≤ 5)
    (s : String) (aiReply : Option AIReply) (hs : jsTrim s = toString n)
    (w : String) (hw : jsTrim w = "") :
    parseResponse (some s) aiReply
      = some ⟨n, 1, "Direct numeric input", Method.NUMERIC, Action.ACCEPT⟩
    ∧ parseResponse none aiReply = none
    ∧ parseResponse (some w) aiReply = none := by
  refine ⟨?_, rfl, ?_⟩
  · simp only [parseResponse, hs]
    interval_cases n <;> rfl
  · simp [parseResponse, hw]

/-- Witness for C5: input "3" with the classifier down parses numerically;
null and whitespace-only inputs return null. -/
theorem c5_numeric_passthrough_witness :
    parseResponse (some "3") none
      = some ⟨3, 1, "Direct numeric input", Method.NUMERIC, Action.ACCEPT⟩
    ∧ parseResponse none (none : Option AIReply) = none
    ∧ parseResponse (some "  ") none = none :=
  c5_numeric_passthrough 3 (by decide) (by decide) "3" none rfl "  " rfl

/-- Counterexample for C6 as frozen: the input "no headache" matches none of
the claim's listed pattern categories (embedded number, level 5, level 4,
level 3 pushed-through, level 3 medication, level 2 presence, level 2
ambiguous), so by the claim the fallback should return null — but the code
returns level 1 at confidence 0.85 from a level-1 no-headache category the
claim's list omits. -/
theorem c6_level1_category_counterexample :
    regexFallback "no headache"
      = some ⟨1, 85/100, "Regex: no headache keywords"⟩
    ∧ embeddedNum (normalizeText "no headache") = none
    ∧ rtest l5Pat (normalizeText "no headache") = false
    ∧ rtest l4Pat (normalizeText "no headache") = false
    ∧ rtest l3PushPat (normalizeText "no headache") = false
    ∧ rtest l3MedPat (normalizeText "no headache") = false
    ∧ rtest l2PresPat (normalizeText "no headache") = false
    ∧ rtest l2AmbPat (normalizeText "no headache") = false :=
  ⟨rfl, rfl, rfl, rfl, rfl, rfl, rfl, rfl⟩

/-- C6 (amended to include the level-1 no-headache category the code tests
between embedded numbers and level 5): `regexFallback` equals the
first-match semantics of the spec-shaped ordered category table, returns
null exactly when no category matches, and reproduces the spec's worked
examples. -/
theorem c6_fallback_priority_order (text : String) :
    regexFallback text = regexFallbackSpec text
    ∧ (regexFallback text = none ↔
        embeddedNum (normalizeText text) = none
        ∧ rtest l1Pat (normalizeText text) = false
        ∧ rtest l5Pat (normalizeText text) = false
        ∧ rtest l4Pat (normalizeText text) = false
        ∧ rtest l3PushPat (normalizeText text) = false
        ∧ rtest l3MedPat (normalizeText text) = false
        ∧ rtest l2PresPat (normalizeText text) = false
        ∧ rtest l2AmbPat (normalizeText text) = false)
    ∧ regexFallback "pushed through today"
        = some ⟨3, 83/100, "Regex: reduced function keywords"⟩
    ∧ regexFallback "fine"
        = some ⟨2, 65/100, "Regex: ambiguous response defaults to Level 2"⟩
    ∧ regexFallback "my head was a 3 today"
        = some ⟨3, 90/100, "Extracted embedded number: 3"⟩
    ∧ regexFallback "call me back" = none := by
  refine ⟨?_, ?_, rfl, rfl, rfl, rfl⟩
  · simp only [regexFallback, regexFallbackSpec, fallbackCategories, firstCategory]
  · simp only [regexFallback]
    cases hemb : embeddedNum (normalizeText text) with
    | some n => simp [hemb]
    | none =>
      simp only [hemb]
      split_ifs <;> simp_all

/-- C7: an input classified by the regex fallback's ambiguous-positive
category (it matches the ambiguous pattern and none of the earlier
categories) gets level 2 at confidence 0.65 — at or above the 0.60 clarify
threshold and strictly below the 0.80 accept threshold — so it routes to
CLARIFY and is never auto-accepted. -/
theorem c7_ambiguous_routes_to_clarify
    (text : String)
    (hemb : embeddedNum (normalizeText text) = none)
    (h1 : rtest l1Pat (normalizeText text) = false)
    (h5 : rtest l5Pat (normalizeText text) = false)
    (h4 : rtest l4Pat (normalizeText text) = false)
    (h3p : rtest l3PushPat (normalizeText text) = false)
    (h3m : rtest l3MedPat (normalizeText text) = false)
    (h2p : rtest l2PresPat (normalizeText text) = false)
    (hamb : rtest l2AmbPat (normalizeText text) = true) :
    regexFallback text
      = some ⟨2, 65/100, "Regex: ambiguous response defaults to Level 2"⟩
    ∧ CONFIDENCE_CLARIFY ≤ 65/100
    ∧ (65/100 : ℚ) < CONFIDENCE_ACCEPT
    ∧ routeByConfidence (65/100) = Action.CLARIFY
    ∧ routeByConfidence (65/100) ≠ Action.ACCEPT := by
  refine ⟨?_, by norm_num [CONFIDENCE_CLARIFY], by norm_num [CONFIDENCE_ACCEPT],
    by norm_num [routeByConfidence, CONFIDENCE_ACCEPT, CONFIDENCE_CLARIFY],
    ?_⟩
  · simp [regexFallback, hemb, h1, h5, h4, h3p, h3m, h2p, hamb]
  · norm_num [routeByConfidence, CONFIDENCE_ACCEPT, CONFIDENCE_CLARIFY]
    decide

/-- Witness for C7 at the spec's own example "fine". -/
theorem c7_ambiguous_routes_to_clarify_witness :
    regexFallback "fine"
      = some ⟨2, 65/100, "Regex: ambiguous response defaults to Level 2"⟩
    ∧ routeByConfidence (65/100) = Action.CLARIFY :=
  have h := c7_ambiguous_routes_to_clarify "fine" rfl rfl rfl rfl rfl rfl rfl rfl
  ⟨h.1, h.2.2.2.1⟩

end HeadacheVault
